import Mathlib

set_option autoImplicit false

deriving instance DecidableEq for Except

namespace McpPatterns

/-! Shallow embedding of the mcp-patterns server core: the entity cache
(src/server/cache.py, src/server/models.py), the entitlement resolver and the
layered authorization gate (src/server/auth.py), and the tool bodies
(src/server/tools.py). Network calls (the downstream entity fetch and the
identity-provider userinfo call) are modelled as explicit outcome parameters;
timestamps are integer seconds; Python dicts are association lists observed
through lookup; Python string sets are lists observed through membership. -/

/-- Entity record fetched from the downstream source (models.py, EntityData). -/
structure EntityData where
  id : String
  name : String
  category : String
  metadata : List (String × String)
deriving Repr, DecidableEq

/-- Resolved entitlements for a credential (models.py, UserEntitlements). -/
structure UserEntitlements where
  user_id : String
  global_roles : List String
  permitted_categories : List String
deriving Repr, DecidableEq

/-- Cached snapshot of all entities (models.py, CachedData): the entity
mapping keyed by id, the refresh timestamp, and the configured ttl. -/
structure CachedData where
  entities : List (String × EntityData)
  last_refreshed_at : Int
  ttl_seconds : Int
deriving Repr, DecidableEq

/-- Staleness test (models.py, CachedData.is_stale): elapsed seconds since the
last refresh strictly greater than the ttl. -/
def CachedData.is_stale (c : CachedData) (now : Int) : Bool :=
  decide (now - c.last_refreshed_at > c.ttl_seconds)

/-- Failures raised on the authentication and authorization paths.
The noBearerToken constructor models the PermissionError raised by
extract_bearer_token when the header is absent or lacks the bearer marker;
identityRejected models the httpx status error raised inside
verify_token_and_resolve_entitlements when the identity provider answers
non-2xx; insufficientRole models the PermissionError raised by the
requires_role wrapper, carrying the required roles and the actual roles that
the Python message interpolates. -/
inductive AuthFailure where
  | noBearerToken
  | identityRejected (status : Nat)
  | insufficientRole (required : List String) (actual : List String)
deriving Repr, DecidableEq

/-- True exactly for the Layer 3 role denial, which the spec calls
AuthorizationError; the other constructors are credential failures, which the
spec calls AuthenticationError. -/
def AuthFailure.isAuthorization : AuthFailure → Bool
  | .insufficientRole _ _ => true
  | _ => false

/-- Test that the first list opens with the second, character by character,
modelling the Python startswith on strings viewed as character lists. -/
def charListHasStart : List Char → List Char → Bool
  | _, [] => true
  | [], _ :: _ => false
  | a :: as, b :: bs => a == b && charListHasStart as bs

/-- Bearer-token extraction (auth.py, extract_bearer_token): read the
authorization header, defaulting to the empty string when absent as
request.headers.get does; accept when the lowercased header starts with the
seven-character bearer marker and return the remainder of the original
header after those seven characters, otherwise raise. String lowering,
the marker test and the slice are modelled on the character list of the
header. -/
def extract_bearer_token (authHeader : Option String) : Except AuthFailure String :=
  let header := authHeader.getD ""
  if charListHasStart (header.data.map Char.toLower) "bearer ".data then
    .ok ⟨header.data.drop 7⟩
  else
    .error .noBearerToken

/-- Server-side entitlement cache keyed by token hash (auth.py,
_entitlement_cache). -/
abbrev EntitlementCache := List (String × UserEntitlements)

/-- Entitlement resolution (auth.py, get_entitlements): hash the token and
serve a cache hit without any verifier call; on a miss invoke the verifier,
insert the result under the hash on success, propagate the failure otherwise.
The hash function and the verifier network call are parameters of the model;
the Nat component counts verifier invocations made by this call. -/
def get_entitlements (hash : String → String)
    (verify : String → Except AuthFailure UserEntitlements)
    (cache : EntitlementCache) (token : String) :
    Except AuthFailure UserEntitlements × EntitlementCache × Nat :=
  match cache.lookup (hash token) with
  | some e => (.ok e, cache, 0)
  | none =>
    match verify token with
    | .ok e => (.ok e, (hash token, e) :: cache, 1)
    | .error err => (.error err, cache, 1)

/-- Layer 3 role test inside the requires_role wrapper (auth.py,
requires_role): the intersection of the caller roles with the required set is
non-empty. -/
def roleCheckPasses (required : List String) (ent : UserEntitlements) : Bool :=
  ent.global_roles.any (fun r => required.contains r)

/-- The requires_role wrapper after entitlements are resolved (auth.py,
requires_role): run the wrapped handler when the role intersection is
non-empty, otherwise raise the PermissionError naming the required roles and
the actual roles. -/
def requires_role {α : Type} (required : List String) (ent : UserEntitlements)
    (func : Unit → α) : Except AuthFailure α :=
  if roleCheckPasses required ent then .ok (func ())
  else .error (.insufficientRole required ent.global_roles)

/-- Continuation of the wrapper once entitlement resolution has answered
(auth.py, requires_role wrapper body after get_entitlements): propagate a
resolution failure, otherwise check roles and run the handler on the
resolved entitlements. -/
def afterEntitlements {α : Type} (required : List String)
    (res : Except AuthFailure UserEntitlements × EntitlementCache × Nat)
    (handler : UserEntitlements → α) :
    Except AuthFailure α × EntitlementCache × Nat :=
  match res with
  | (.error e, c, n) => (.error e, c, n)
  | (.ok ent, c, n) => (requires_role required ent (fun _ => handler ent), c, n)

/-- Full wrapper pipeline of one tool invocation (auth.py, requires_role
composed with extract_bearer_token and get_entitlements): extract the bearer
token, resolve entitlements through the cache, check roles, then run the
handler on the resolved entitlements. Returns the call outcome, the
entitlement cache after the call, and the number of verifier invocations. -/
def toolCall {α : Type} (hash : String → String)
    (verify : String → Except AuthFailure UserEntitlements)
    (required : List String) (authHeader : Option String)
    (cache : EntitlementCache) (handler : UserEntitlements → α) :
    Except AuthFailure α × EntitlementCache × Nat :=
  match extract_bearer_token authHeader with
  | .error e => (.error e, cache, 0)
  | .ok token =>
    afterEntitlements required (get_entitlements hash verify cache token) handler

/-- Entity mapping produced by one successful downstream fetch (cache.py,
fetch_all_entities), keyed by entity id. -/
abbrev Entities := List (String × EntityData)

/-- Upstream fetch failure (spec name UpstreamFetchError: the httpx status or
transport error raised inside fetch_all_entities). -/
inductive UpstreamFetchError where
  | fetchFailed (detail : String)
deriving Repr, DecidableEq

/-- Snapshot construction (cache.py, build_cache): wrap the fetched entities
with the current timestamp and the configured ttl. -/
def build_cache (entities : Entities) (now : Int) (ttl : Int) : CachedData :=
  { entities := entities, last_refreshed_at := now, ttl_seconds := ttl }

/-- Outcome of one downstream fetch attempt: the keyed entity mapping or an
UpstreamFetchError. -/
abbrev FetchOutcome := Except UpstreamFetchError Entities

/-- One iteration of the background refresh loop after its sleep (cache.py,
refresh_loop body): attempt a build from the fetch outcome of this tick; on
success swap the holder to the newly built snapshot, on failure log and keep
the previous snapshot. The function is total into CachedData, so no
exception escapes a cycle. -/
def refresh_tick (outcome : FetchOutcome) (now ttl : Int) (holder : CachedData) : CachedData :=
  match outcome with
  | .ok entities => build_cache entities now ttl
  | .error _ => holder

/-- The background refresh loop over a finite schedule of ticks (cache.py,
refresh_loop): each scheduled tick consumes exactly one fetch outcome, taken
at the time recorded with it; there is no retry within a tick. -/
def refresh_loop (schedule : List (FetchOutcome × Int)) (ttl : Int)
    (holder : CachedData) : CachedData :=
  schedule.foldl (fun h ot => refresh_tick ot.1 ot.2 ttl h) holder

/-- Result of the list_entities tool (tools.py, list_entities): the no-match
message, or one rendered line per entity giving its name, id and category,
together with the staleness-warning flag. -/
inductive ListResponse where
  | noEntities
  | listing (lines : List (String × String × String)) (staleWarning : Bool)
deriving Repr, DecidableEq

/-- Layer 4 filter of list_entities (tools.py, list_entities): keep the
entities of the snapshot whose category is in the caller permitted
categories and matches the optional category argument. -/
def listEntitiesFiltered (cache : CachedData) (ent : UserEntitlements)
    (category : Option String) : List EntityData :=
  (cache.entities.map Prod.snd).filter (fun e =>
    ent.permitted_categories.contains e.category &&
      match category with
      | none => true
      | some c => e.category == c)

/-- Body of the list_entities tool after Layer 3 authorization (tools.py,
list_entities): filter by entitlements, answer the no-match message on an
empty result, otherwise render one line per entity and annotate staleness. -/
def list_entities (cache : CachedData) (ent : UserEntitlements)
    (category : Option String) (now : Int) : ListResponse :=
  let entities := listEntitiesFiltered cache ent category
  if entities.isEmpty then .noEntities
  else .listing (entities.map (fun e => (e.name, e.id, e.category))) (cache.is_stale now)

/-- Result of the get_entity tool (tools.py, get_entity): the not-found
message naming the requested id, the access-denied message naming the entity
category, or the entity body. -/
inductive GetResponse where
  | notFound (entity_id : String)
  | accessDenied (category : String)
  | body (name : String) (id : String) (category : String)
      (metadata : List (String × String))
deriving Repr, DecidableEq

/-- Body of the get_entity tool after Layer 3 authorization (tools.py,
get_entity): the existence check runs first and answers not-found for an
absent id; only for a present entity is the Layer 4 category check applied,
answering access-denied with the entity category or the entity body. -/
def get_entity (cache : CachedData) (ent : UserEntitlements)
    (entity_id : String) : GetResponse :=
  match cache.entities.lookup entity_id with
  | none => .notFound entity_id
  | some e =>
    if ent.permitted_categories.contains e.category then
      .body e.name e.id e.category e.metadata
    else
      .accessDenied e.category

/-- Result of the refresh_cache tool (tools.py, refresh_cache): the
no-downstream message, or the success message reporting the new entity
count. -/
inductive RefreshResponse where
  | noDownstream
  | refreshed (count : Nat)
deriving Repr, DecidableEq

/-- Body of the refresh_cache tool after Layer 3 authorization (tools.py,
refresh_cache): without a configured http client report unavailability and
leave the holder untouched; otherwise build a new snapshot from the fetch
outcome, swap the holder and report the entity count on success, and
propagate the failure with the holder untouched on error. Returns the call
outcome together with the holder contents after the call. -/
def refresh_cache (clientConfigured : Bool) (outcome : FetchOutcome)
    (now ttl : Int) (holder : CachedData) :
    Except UpstreamFetchError RefreshResponse × CachedData :=
  if clientConfigured then
    match outcome with
    | .ok entities =>
      let new_cache := build_cache entities now ttl
      (.ok (.refreshed new_cache.entities.length), new_cache)
    | .error e => (.error e, holder)
  else
    (.ok .noDownstream, holder)

/-! Concrete fixtures for the spec scenarios: two entities (one in category
ops, one in category finance), a reader entitled to ops only, a caller with
no roles, and a deterministic hash and verifier standing in for sha256 and
the identity provider. -/

/-- Entity of category ops from the spec scenario. -/
def entityOps : EntityData :=
  { id := "e1", name := "Entity One", category := "ops", metadata := [] }

/-- Entity of category finance from the spec scenario. -/
def entityFin : EntityData :=
  { id := "e2", name := "Entity Two", category := "finance", metadata := [] }

/-- Snapshot holding the two scenario entities, refreshed at time 0 with
ttl 300. -/
def demoCache : CachedData :=
  { entities := [("e1", entityOps), ("e2", entityFin)]
    last_refreshed_at := 0, ttl_seconds := 300 }

/-- Caller with role reader entitled to category ops only. -/
def entOps : UserEntitlements :=
  { user_id := "alice", global_roles := ["reader"], permitted_categories := ["ops"] }

/-- Caller with an empty role set. -/
def entNoRoles : UserEntitlements :=
  { user_id := "nobody", global_roles := [], permitted_categories := ["ops"] }

/-- Deterministic stand-in for the sha256 token hash. -/
def demoHash (s : String) : String := s ++ "h"

/-- Deterministic stand-in for the identity provider: accepts the token tok
with the entOps profile and rejects every other token with status 401. -/
def demoVerify (t : String) : Except AuthFailure UserEntitlements :=
  if t == "tok" then .ok entOps else .error (.identityRejected 401)

/-- A concrete upstream failure for the refresh scenarios. -/
def fetchFail : UpstreamFetchError := .fetchFailed "connect timeout"

/-- Snapshot holding only the ops entity, so that the finance id is absent. -/
def demoCacheOps : CachedData :=
  { entities := [("e1", entityOps)], last_refreshed_at := 0, ttl_seconds := 300 }

/-! Theorems. -/

/-- Membership in the Layer 4 filtered list forces a permitted category. -/
theorem mem_listEntitiesFiltered_permitted (cache : CachedData)
    (ent : UserEntitlements) (category : Option String) (e : EntityData)
    (h : e ∈ listEntitiesFiltered cache ent category) :
    ent.permitted_categories.contains e.category = true := by
  unfold listEntitiesFiltered at h
  have h2 := List.of_mem_filter h
  simp only [Bool.and_eq_true] at h2
  exact h2.1

/-- C1: Layer 4 data filtering: every line of list_entities output names a
category contained in the caller permitted categories, so entities of a
non-permitted category are silently omitted; and get_entity on a present
entity whose category is not permitted answers the access-denied result
naming that category rather than the entity body. -/
theorem layer4_data_filtering (cache : CachedData) (ent : UserEntitlements)
    (category : Option String) (now : Int) :
    (∀ lines warn, list_entities cache ent category now = .listing lines warn →
      ∀ nm i c, (nm, i, c) ∈ lines → ent.permitted_categories.contains c = true)
    ∧ (∀ entity_id e, cache.entities.lookup entity_id = some e →
        ent.permitted_categories.contains e.category = false →
        get_entity cache ent entity_id = .accessDenied e.category) := by
  constructor
  · intro lines warn hres nm i c hmem
    simp only [list_entities] at hres
    split at hres
    · exact absurd hres (by simp)
    · cases hres
      rcases List.mem_map.mp hmem with ⟨e, he, heq⟩
      have hc : e.category = c := congrArg (fun p => p.2.2) heq
      exact hc ▸ mem_listEntitiesFiltered_permitted cache ent category e he
  · intro entity_id e hlook hperm
    have hnm : e.category ∉ ent.permitted_categories := by simpa using hperm
    simp [get_entity, hlook, hnm]

/-- Witness for C1 at the spec scenario: the ops-only reader sees exactly the
ops entity in the listing, and fetching the finance entity directly answers
access denied naming finance. -/
theorem layer4_data_filtering_witness :
    entOps.permitted_categories.contains "ops" = true
    ∧ get_entity demoCache entOps "e2" = GetResponse.accessDenied "finance" :=
  ⟨(layer4_data_filtering demoCache entOps none 0).1 [("Entity One", "e1", "ops")]
      false (by decide) "Entity One" "e1" "ops" (by decide),
   (layer4_data_filtering demoCache entOps none 0).2 "e2" entityFin (by decide) (by decide)⟩

/-- C2: Layer 3 call authorization: the wrapped handler runs exactly when the
intersection of the caller resolved roles with the required role set is
non-empty; on an empty intersection the call fails with the denial naming
the required roles and the caller actual roles. -/
theorem layer3_call_authorization {α : Type} (required : List String)
    (ent : UserEntitlements) (func : Unit → α) :
    ((∃ r ∈ ent.global_roles, r ∈ required) ↔
      requires_role required ent func = .ok (func ()))
    ∧ (¬ (∃ r ∈ ent.global_roles, r ∈ required) →
      requires_role required ent func = .error (.insufficientRole required ent.global_roles)) := by
  have hiff : roleCheckPasses required ent = true ↔ ∃ r ∈ ent.global_roles, r ∈ required := by
    simp [roleCheckPasses, List.any_eq_true]
  have hfun : ¬ (∃ r ∈ ent.global_roles, r ∈ required) →
      roleCheckPasses required ent = false := by
    intro h
    cases hc : roleCheckPasses required ent
    · rfl
    · exact absurd (hiff.mp hc) h
  constructor
  · constructor
    · intro h
      simp [requires_role, hiff.mpr h]
    · intro h
      by_cases hb : ∃ r ∈ ent.global_roles, r ∈ required
      · exact hb
      · simp [requires_role, hfun hb] at h
  · intro h
    simp [requires_role, hfun h]

/-- Witness for C2 at the spec scenarios: roles containing reader pass a gate
requiring reader or admin, while the empty role set is denied with the error
naming required and actual roles. -/
theorem layer3_call_authorization_witness :
    requires_role ["reader", "admin"] entOps (fun _ => (0 : Nat)) = .ok 0
    ∧ requires_role ["reader", "admin"] entNoRoles (fun _ => (0 : Nat)) =
        .error (.insufficientRole ["reader", "admin"] []) :=
  ⟨(layer3_call_authorization ["reader", "admin"] entOps (fun _ => (0 : Nat))).1.mp
      ⟨"reader", by decide, by decide⟩,
   (layer3_call_authorization ["reader", "admin"] entNoRoles (fun _ => (0 : Nat))).2
      (by decide)⟩

/-- C3: entitlement resolver idempotence: when a resolve succeeds, resolving
the same token again against the resulting cache is served from the cache
with zero verifier invocations and answers an equal profile; the two calls
together invoke the verifier at most once. -/
theorem entitlement_resolver_idempotent (hash : String → String)
    (verify : String → Except AuthFailure UserEntitlements)
    (cache c1 : EntitlementCache) (token : String)
    (p : UserEntitlements) (n1 : Nat)
    (h : get_entitlements hash verify cache token = (.ok p, c1, n1)) :
    get_entitlements hash verify c1 token = (.ok p, c1, 0) ∧ n1 ≤ 1 := by
  unfold get_entitlements at h ⊢
  cases hl : cache.lookup (hash token) with
  | some e =>
    rw [hl] at h
    simp only [Prod.mk.injEq, Except.ok.injEq] at h
    obtain ⟨rfl, rfl, rfl⟩ := h
    rw [hl]
    exact ⟨rfl, by omega⟩
  | none =>
    rw [hl] at h
    cases hv : verify token with
    | ok e =>
      rw [hv] at h
      simp only [Prod.mk.injEq, Except.ok.injEq] at h
      obtain ⟨rfl, rfl, rfl⟩ := h
      simp [List.lookup]
    | error err =>
      rw [hv] at h
      simp at h

/-- Witness for C3: after resolving tok once from the empty cache, a second
resolve hits the cache and makes no verifier call. -/
theorem entitlement_resolver_idempotent_witness :
    get_entitlements demoHash demoVerify [("tokh", entOps)] "tok" =
      (.ok entOps, [("tokh", entOps)], 0)
    ∧ (1 : Nat) ≤ 1 :=
  entitlement_resolver_idempotent demoHash demoVerify [] [("tokh", entOps)]
    "tok" entOps 1 (by decide)

/-- C4: no negative caching: when the verifier fails for a token not in the
cache, resolve propagates that failure and answers with the cache exactly
unchanged, after exactly the one failed verifier invocation. -/
theorem no_negative_caching (hash : String → String)
    (verify : String → Except AuthFailure UserEntitlements)
    (cache : EntitlementCache) (token : String) (err : AuthFailure)
    (hmiss : cache.lookup (hash token) = none)
    (hfail : verify token = .error err) :
    get_entitlements hash verify cache token = (.error err, cache, 1) := by
  unfold get_entitlements
  rw [hmiss, hfail]

/-- Witness for C4: resolving the rejected token bad from the empty cache
propagates the identity-provider rejection and leaves the cache empty. -/
theorem no_negative_caching_witness :
    get_entitlements demoHash demoVerify [] "bad" =
      (.error (.identityRejected 401), [], 1) :=
  no_negative_caching demoHash demoVerify [] "bad" (.identityRejected 401)
    (by decide) (by decide)

/-- C5: manual refresh atomicity: with a configured client, a failed fetch
makes refresh_cache propagate the error to the caller with the snapshot
holder exactly unchanged, and a successful fetch swaps the holder to the
newly built snapshot and reports its entity count. -/
theorem manual_refresh_atomicity (outcome : FetchOutcome) (now ttl : Int)
    (holder : CachedData) :
    (∀ e, outcome = .error e →
      refresh_cache true outcome now ttl holder = (.error e, holder))
    ∧ (∀ entities, outcome = .ok entities →
      refresh_cache true outcome now ttl holder =
        (.ok (.refreshed (build_cache entities now ttl).entities.length),
          build_cache entities now ttl)) := by
  constructor
  · intro e he
    subst he
    rfl
  · intro entities he
    subst he
    rfl

/-- Witness for C5 at the spec scenario: an admin-forced refresh against an
unreachable downstream fails with the upstream error and leaves the holder
at the previous snapshot; a successful one swaps and reports the count. -/
theorem manual_refresh_atomicity_witness :
    refresh_cache true (.error fetchFail) 400 300 demoCache = (.error fetchFail, demoCache)
    ∧ refresh_cache true (.ok [("e1", entityOps)]) 400 300 demoCache =
        (.ok (.refreshed 1), build_cache [("e1", entityOps)] 400 300) :=
  ⟨(manual_refresh_atomicity (.error fetchFail) 400 300 demoCache).1 fetchFail rfl,
   (manual_refresh_atomicity (.ok [("e1", entityOps)]) 400 300 demoCache).2
      [("e1", entityOps)] rfl⟩

/-- C6: serve stale on error: a scheduled refresh tick whose fetch fails
leaves the holder bound to the previous snapshot unchanged, and within the
loop a failing tick leaves the holder exactly where the preceding schedule
left it; refresh_tick is total into CachedData, so no exception escapes the
background task, and each tick consumes exactly one fetch outcome, so there
is no retry before the next scheduled tick. -/
theorem serve_stale_on_error (schedule : List (FetchOutcome × Int))
    (e : UpstreamFetchError) (t ttl : Int) (holder : CachedData) :
    refresh_tick (.error e) t ttl holder = holder
    ∧ refresh_loop (schedule ++ [(.error e, t)]) ttl holder =
        refresh_loop schedule ttl holder := by
  refine ⟨rfl, ?_⟩
  simp [refresh_loop, List.foldl_append, refresh_tick]

/-- C7: staleness semantics: for a non-negative ttl, is_stale holds exactly
when the elapsed time since the last refresh strictly exceeds the ttl, and a
snapshot built at the current instant, which stamps last_refreshed_at with
that instant, is not stale at that instant. -/
theorem staleness_semantics (c : CachedData) (now : Int) (entities : Entities)
    (t ttl : Int) (httl : 0 ≤ ttl) :
    (c.is_stale now = true ↔ now - c.last_refreshed_at > c.ttl_seconds)
    ∧ (build_cache entities t ttl).is_stale t = false := by
  constructor
  · simp [CachedData.is_stale]
  · simp [CachedData.is_stale, build_cache]
    omega

/-- Witness for C7 with ttl 300: a snapshot built at time 0 is not stale at
time 0. -/
theorem staleness_semantics_witness :
    ((0 : Int) ≤ 300) ∧ (build_cache [] 0 300).is_stale 0 = false :=
  ⟨by decide, (staleness_semantics demoCache 301 [] 0 300 (by decide)).2⟩

/-- C8: error-kind distinction: through the full tool-call pipeline, a
missing or malformed credential fails with the bearer-token error, a
credential rejected by the identity provider fails with the rejection error,
both of authentication kind, while a valid credential whose resolved role
set misses the required roles fails with the role denial of authorization
kind; the isAuthorization flag separates the two kinds for the caller. -/
theorem error_kind_distinction {α : Type} (hash : String → String)
    (verify : String → Except AuthFailure UserEntitlements)
    (required : List String) (cache : EntitlementCache)
    (handler : UserEntitlements → α) :
    (∀ authHeader, extract_bearer_token authHeader = .error .noBearerToken →
      (toolCall hash verify required authHeader cache handler).1 = .error .noBearerToken
        ∧ AuthFailure.noBearerToken.isAuthorization = false)
    ∧ (∀ authHeader token s, extract_bearer_token authHeader = .ok token →
        cache.lookup (hash token) = none →
        verify token = .error (.identityRejected s) →
        (toolCall hash verify required authHeader cache handler).1 =
            .error (.identityRejected s)
          ∧ (AuthFailure.identityRejected s).isAuthorization = false)
    ∧ (∀ authHeader token ent c n, extract_bearer_token authHeader = .ok token →
        get_entitlements hash verify cache token = (.ok ent, c, n) →
        roleCheckPasses required ent = false →
        (toolCall hash verify required authHeader cache handler).1 =
            .error (.insufficientRole required ent.global_roles)
          ∧ (AuthFailure.insufficientRole required ent.global_roles).isAuthorization = true) := by
  refine ⟨?_, ?_, ?_⟩
  · intro authHeader hx
    refine ⟨?_, rfl⟩
    unfold toolCall
    rw [hx]
  · intro authHeader token s hx hmiss hv
    have hres : get_entitlements hash verify cache token =
        (.error (.identityRejected s), cache, 1) := by
      unfold get_entitlements
      rw [hmiss, hv]
    refine ⟨?_, rfl⟩
    unfold toolCall
    simp only [hx]
    rw [hres]
    rfl
  · intro authHeader token ent c n hx hres hrole
    have hrr : requires_role required ent (fun _ => handler ent) =
        .error (.insufficientRole required ent.global_roles) := by
      simp [requires_role, hrole]
    refine ⟨?_, rfl⟩
    unfold toolCall
    simp only [hx]
    rw [hres]
    show requires_role required ent (fun _ => handler ent) =
      Except.error (AuthFailure.insufficientRole required ent.global_roles)
    exact hrr

/-- Witness for C8: a headerless request, a request with a rejected token,
and a request with an accepted token lacking the admin role produce the
three denials, the first two of authentication kind and the last of
authorization kind. -/
theorem error_kind_distinction_witness :
    ((toolCall demoHash demoVerify ["admin"] none [] (fun e => e.user_id)).1 =
        .error .noBearerToken ∧ AuthFailure.noBearerToken.isAuthorization = false)
    ∧ ((toolCall demoHash demoVerify ["admin"] (some "Bearer bad") []
          (fun e => e.user_id)).1 = .error (.identityRejected 401)
        ∧ (AuthFailure.identityRejected 401).isAuthorization = false)
    ∧ ((toolCall demoHash demoVerify ["admin"] (some "Bearer tok") []
          (fun e => e.user_id)).1 = .error (.insufficientRole ["admin"] ["reader"])
        ∧ (AuthFailure.insufficientRole ["admin"] ["reader"]).isAuthorization = true) :=
  ⟨(error_kind_distinction demoHash demoVerify ["admin"] [] (fun e => e.user_id)).1
      none (by decide),
   (error_kind_distinction demoHash demoVerify ["admin"] [] (fun e => e.user_id)).2.1
      (some "Bearer bad") "bad" 401 (by decide) (by decide) (by decide),
   (error_kind_distinction demoHash demoVerify ["admin"] [] (fun e => e.user_id)).2.2
      (some "Bearer tok") "tok" entOps [("tokh", entOps)] 1
      (by decide) (by decide) (by decide)⟩

/-- C9: snapshot immutability and wholesale replacement: on a failed fetch
both refresh paths leave the holder bound to the previous snapshot with
every field intact, and on a successful fetch both paths bind the holder to
the snapshot built wholesale from the fetched entities and the clock: the
result is independent of the previous snapshot, so the old snapshot is never
patched in place; the read paths are pure functions of a snapshot and touch
no holder at all. -/
theorem snapshot_wholesale_replacement (outcome : FetchOutcome) (now ttl : Int)
    (h h1 h2 : CachedData) :
    (∀ e, outcome = .error e →
      refresh_tick outcome now ttl h = h
        ∧ (refresh_cache true outcome now ttl h).2 = h)
    ∧ (∀ entities, outcome = .ok entities →
      refresh_tick outcome now ttl h1 = refresh_tick outcome now ttl h2
        ∧ refresh_tick outcome now ttl h = build_cache entities now ttl
        ∧ (refresh_cache true outcome now ttl h1).2 =
            (refresh_cache true outcome now ttl h2).2
        ∧ (refresh_cache true outcome now ttl h).2 = build_cache entities now ttl) := by
  constructor
  · intro e he
    subst he
    exact ⟨rfl, rfl⟩
  · intro entities he
    subst he
    exact ⟨rfl, rfl, rfl, rfl⟩

/-- Witness for C9: a failing tick keeps the demo snapshot, and a successful
tick from two different previous snapshots builds the same fresh one. -/
theorem snapshot_wholesale_replacement_witness :
    (refresh_tick (.error fetchFail) 400 300 demoCache = demoCache
      ∧ (refresh_cache true (.error fetchFail) 400 300 demoCache).2 = demoCache)
    ∧ (refresh_tick (.ok []) 400 300 demoCache = refresh_tick (.ok []) 400 300 demoCacheOps
      ∧ refresh_tick (.ok []) 400 300 demoCache = build_cache [] 400 300
      ∧ (refresh_cache true (.ok []) 400 300 demoCache).2 =
          (refresh_cache true (.ok []) 400 300 demoCacheOps).2
      ∧ (refresh_cache true (.ok []) 400 300 demoCache).2 = build_cache [] 400 300) :=
  ⟨(snapshot_wholesale_replacement (.error fetchFail) 400 300 demoCache demoCache
      demoCacheOps).1 fetchFail rfl,
   (snapshot_wholesale_replacement (.ok []) 400 300 demoCache demoCache
      demoCacheOps).2 [] rfl⟩

/-- C10: implicit existence leak in get_entity: the existence check precedes
the Layer 4 check, so an absent id answers the not-found result naming the
id while a present entity of a non-permitted category answers the
access-denied result naming the category; the two results are never equal,
so the response reveals the existence and the category of entities the
caller is not entitled to read. -/
theorem get_entity_existence_leak (cache cache2 : CachedData)
    (ent : UserEntitlements) (entity_id : String) (e : EntityData) :
    (cache.entities.lookup entity_id = some e →
      ent.permitted_categories.contains e.category = false →
      get_entity cache ent entity_id = .accessDenied e.category)
    ∧ (cache2.entities.lookup entity_id = none →
      get_entity cache2 ent entity_id = .notFound entity_id)
    ∧ (∀ cat i, GetResponse.accessDenied cat ≠ GetResponse.notFound i) := by
  refine ⟨?_, ?_, ?_⟩
  · intro hlook hperm
    have hnm : e.category ∉ ent.permitted_categories := by simpa using hperm
    simp [get_entity, hlook, hnm]
  · intro hlook
    simp [get_entity, hlook]
  · intro cat i hcontra
    exact GetResponse.noConfusion hcontra

/-- Witness for C10: for the id e2, the ops-only caller learns from the two
distinct responses whether the finance entity exists and what its category
is. -/
theorem get_entity_existence_leak_witness :
    get_entity demoCache entOps "e2" = GetResponse.accessDenied "finance"
    ∧ get_entity demoCacheOps entOps "e2" = GetResponse.notFound "e2"
    ∧ GetResponse.accessDenied "finance" ≠ GetResponse.notFound "e2" :=
  ⟨(get_entity_existence_leak demoCache demoCacheOps entOps "e2" entityFin).1
      (by decide) (by decide),
   (get_entity_existence_leak demoCache demoCacheOps entOps "e2" entityFin).2.1
      (by decide),
   (get_entity_existence_leak demoCache demoCacheOps entOps "e2" entityFin).2.2
      "finance" "e2"⟩

end McpPatterns
